import Mathlib

/-!
Verification development for the group-buy setup bot in `src/main.py`.

The development shallowly embeds:
* the custom Firestore persistence adapter (`CustomFirestorePersistence`):
  documents of the `userBotStates` collection are modelled as structured
  records carrying the `telegramUserId`, `pendingData` and `currentState`
  fields plus arbitrary unrelated fields; a Firestore `set(..., merge=True)`
  is modelled field by field (an empty map value is a leaf that overwrites,
  a non-empty map value merges key-wise, scalar values overwrite);
* the conversation wizard (`ConversationHandler` states and handler
  functions `received_item` .. `received_confirmation`), driven by the
  dispatch rule of the configured handler: entry points when no
  conversation is active, otherwise the active state's handlers and then
  the fallbacks.

Store failures are modelled explicitly: every load takes an `Except` value
standing for the outcome of the underlying Firestore call, and every save
takes a flag saying whether the underlying write raised; the adapter
functions are total, mirroring the `try/except` blocks that swallow store
errors.  Outbound Telegram sends are modelled as effects; the one delivery
failure that changes control flow in the embedded claims (the direct
message sent by `newbuy_command_group`) is modelled by an explicit result
parameter.  Long interpolated message texts are abbreviated to
representative fragments of the source prompts; no claim depends on the
elided parts.
-/

set_option maxRecDepth 10000

namespace Garupa

/-- Values stored in a Firestore field or in the per-user scratch mapping
(`context.user_data`).  `null` models Python `None`, `serverTimestamp`
models the `firestore.SERVER_TIMESTAMP` sentinel (which is not `None` and
therefore survives the `v is not None` cleaning step). -/
inductive FValue where
  | null : FValue
  | int (n : Int) : FValue
  | str (s : String) : FValue
  | boolean (b : Bool) : FValue
  | serverTimestamp : FValue
deriving DecidableEq, Repr

/-- First-match lookup in an association list (Python `dict` access;
well-formed stores keep keys unique, so first match equals dict lookup). -/
def alookup {β : Type} : List (String × β) → String → Option β
  | [], _ => none
  | (k0, v0) :: rest, k => if k0 = k then some v0 else alookup rest k

/-- Upsert into an association list (Python `d[k] = v`). -/
def aupsert {β : Type} : List (String × β) → String → β → List (String × β)
  | [], k, v => [(k, v)]
  | (k0, v0) :: rest, k, v =>
      if k0 = k then (k0, v) :: rest else (k0, v0) :: aupsert rest k v

/-- Remove a key from an association list (Python `d.pop(k, None)`). -/
def aremove {β : Type} : List (String × β) → String → List (String × β)
  | [], _ => []
  | (k0, v0) :: rest, k => if k0 = k then rest else (k0, v0) :: aremove rest k

/-- Update the value at a key, inserting `f empty` when the key is absent
(the shape of a Firestore `set(..., merge=True)` on a possibly missing
document). -/
def aupdate {β : Type} (empty : β) : List (String × β) → String → (β → β) → List (String × β)
  | [], k, f => [(k, f empty)]
  | (k0, v0) :: rest, k, f =>
      if k0 = k then (k0, f v0) :: rest else (k0, v0) :: aupdate empty rest k f

/-- Python `d.get(k, default)` on a scratch mapping. -/
def dget (d : List (String × FValue)) (k : String) (default : FValue) : FValue :=
  (alookup d k).getD default

/-- Key-wise merge of a map field written with `merge=True`: every field of
`new` overwrites the corresponding field of `old`, other fields of `old`
survive. -/
def mergeFields (old new : List (String × FValue)) : List (String × FValue) :=
  new.foldl (fun acc kv => aupsert acc kv.1 kv.2) old

/-- One document of the `userBotStates` collection: the three fields the
adapter reads and writes, plus the unrelated fields of the same record
(assumed to use other field names). -/
structure UserDoc where
  telegramUserId : Option Int
  /-- The scratch sub-field; `some []` is an explicitly stored empty map,
  `none` means the field is absent from the document. -/
  pendingData : Option (List (String × FValue))
  /-- The conversation-state sub-field; `some .null` is an explicitly
  stored Firestore `null` (the Python handler writes `None` there),
  `none` means the field is absent. -/
  currentState : Option FValue
  extra : List (String × FValue)
deriving DecidableEq, Repr

/-- A document with no fields at all (a Firestore `set(..., merge=True)`
creates the document when missing). -/
def emptyDoc : UserDoc := ⟨none, none, none, []⟩

/-- Python truthiness of `doc_snapshot.to_dict()` for a user document. -/
def UserDoc.isEmptyDoc (d : UserDoc) : Bool := d = emptyDoc

/-- The `userBotStates` collection: document id (a string) to document. -/
abbrev Collection := List (String × UserDoc)

/-- Error raised by the underlying Firestore client. -/
abbrev StoreErr := String

/-- ASCII lowercase of one character (Python `str.lower` on the ASCII
strings the handlers compare against). -/
def lowerChar (c : Char) : Char :=
  if 'A' ≤ c ∧ c ≤ 'Z' then Char.ofNat (c.toNat + 32) else c

/-- ASCII lowercase of a string. -/
def lowerStr (s : String) : String := ⟨s.data.map lowerChar⟩

/-- Value of a decimal digit character. -/
def digitVal (c : Char) : Option Nat :=
  if '0' ≤ c ∧ c ≤ '9' then some (c.toNat - '0'.toNat) else none

/-- Parse a non-empty all-digit character list. -/
def parseNatChars : List Char → Option Nat
  | [] => none
  | cs =>
    cs.foldl (fun acc c =>
      match acc, digitVal c with
      | some n, some d => some (n * 10 + d)
      | _, _ => none) (some 0)

/-- Python `int(s)` on the document-id strings the adapter works with: an
optional minus sign followed by decimal digits; anything else raises
`ValueError`, modelled as `none`.  (Ids written by the adapter are always
`str(user_id)`, which this parser inverts.) -/
def parseIntId (s : String) : Option Int :=
  match s.data with
  | [] => none
  | '-' :: rest => (parseNatChars rest).map (fun n => -(n : Int))
  | l => (parseNatChars l).map Int.ofNat

/-- `CustomFirestorePersistence.get_user_data` (src/main.py:128-155): on a
store error returns an empty `defaultdict`; otherwise each document whose
id parses as an integer contributes its `pendingData` sub-field, an empty
mapping when the field is absent but the document is non-empty, and
nothing when the document is empty.  Documents with non-integer ids are
skipped (the `ValueError` branch). -/
def userDataEntry (p : String × UserDoc) : Option (Int × List (String × FValue)) :=
  match parseIntId p.1 with
  | none => none
  | some uid =>
    match p.2.pendingData with
    | some pd => some (uid, pd)
    | none => if p.2.isEmptyDoc then none else some (uid, [])

def get_user_data (res : Except StoreErr Collection) : List (Int × List (String × FValue)) :=
  match res with
  | .error _ => []
  | .ok coll => coll.filterMap userDataEntry

/-- `CustomFirestorePersistence.update_user_data` (src/main.py:157-173):
a `set` with `merge=True` of `telegramUserId` and `pendingData`; an empty
`data` writes an explicit empty map (a leaf value under merge), a
non-empty `data` merges key-wise into the stored sub-field.  A failing
write is logged and swallowed, leaving the store unchanged. -/
def update_user_data (writeFails : Bool) (coll : Collection) (user_id : Int)
    (data : List (String × FValue)) : Collection :=
  if writeFails then coll
  else
    aupdate emptyDoc coll (toString user_id) (fun doc =>
      { doc with
        telegramUserId := some user_id
        pendingData :=
          some (if data.isEmpty then [] else mergeFields (doc.pendingData.getD []) data) })

/-- `CustomFirestorePersistence.get_conversations` (src/main.py:175-200):
on a store error returns an empty mapping; otherwise each document whose
id parses as an integer and whose `currentState` field is present (an
explicitly stored `null` counts as present, matching Python
`'currentState' in doc_data`) contributes the key `(user_id,)` mapped to
the stored state. -/
def convEntry (p : String × UserDoc) : Option (List Int × FValue) :=
  match parseIntId p.1, p.2.currentState with
  | some uid, some st => some ([uid], st)
  | _, _ => none

def get_conversations (res : Except StoreErr Collection) : List (List Int × FValue) :=
  match res with
  | .error _ => []
  | .ok coll => coll.filterMap convEntry

/-- First-match lookup of a conversation key in the mapping returned by
`get_conversations`. -/
def klookup : List (List Int × FValue) → List Int → Option FValue
  | [], _ => none
  | (k0, v0) :: rest, k => if k0 = k then some v0 else klookup rest k

/-- The value `update_conversation` stores in `currentState`: Python `None`
(conversation ended) becomes an explicit Firestore `null`, an integer
state is stored as is. -/
def encodeState : Option Int → FValue
  | none => FValue.null
  | some n => FValue.int n

/-- `CustomFirestorePersistence.update_conversation` (src/main.py:202-226):
an empty key is rejected up front (logged, no write).  Otherwise the
document id is `str(key[0])` and a `set` with `merge=True` writes
`telegramUserId` and `currentState` (an explicit `null` for an ended
conversation).  A failing write is logged and swallowed. -/
def update_conversation (writeFails : Bool) (coll : Collection) (_name : String)
    (key : List Int) (new_state : Option Int) : Collection :=
  match key with
  | [] => coll
  | user_id :: _ =>
    if writeFails then coll
    else
      aupdate emptyDoc coll (toString user_id) (fun doc =>
        { doc with
          telegramUserId := some user_id
          currentState := some (encodeState new_state) })

/-- `CustomFirestorePersistence.drop_user_data` (src/main.py:255-267): a
`set` with `merge=True` writing `telegramUserId`, an explicit empty
`pendingData` map and an explicit `null` `currentState`.  A failing write
is logged and swallowed. -/
def drop_user_data (writeFails : Bool) (coll : Collection) (user_id : Int) : Collection :=
  if writeFails then coll
  else
    aupdate emptyDoc coll (toString user_id) (fun doc =>
      { doc with
        telegramUserId := some user_id
        pendingData := some []
        currentState := some FValue.null })

/-- `CustomFirestorePersistence.get_bot_data` (src/main.py:94-109): the
shared data lives in one document; a store error or a missing document
yields an empty mapping. -/
def get_bot_data (res : Except StoreErr (Option (List (String × FValue)))) :
    List (String × FValue) :=
  match res with
  | .error _ => []
  | .ok none => []
  | .ok (some d) => d

/-- `CustomFirestorePersistence.update_bot_data` (src/main.py:111-126): a
full overwrite of the shared document (`set` without merge), writing an
explicit empty map when `data` is falsy.  A failing write is logged and
swallowed, leaving the stored document unchanged. -/
def update_bot_data (writeFails : Bool) (stored : Option (List (String × FValue)))
    (data : List (String × FValue)) : Option (List (String × FValue)) :=
  if writeFails then stored
  else some (if data.isEmpty then [] else data)

/-- Canonical document ids: whenever the id parses as an integer it is
exactly the decimal rendering of that integer.  Every id the adapter
itself writes has this shape (`str(user_id)`). -/
def canonicalId (s : String) : Prop :=
  match parseIntId s with
  | some j => s = toString j
  | none => True

instance (s : String) : Decidable (canonicalId s) := by
  unfold canonicalId
  exact match parseIntId s with
  | some _ => inferInstanceAs (Decidable (_ = _))
  | none => inferInstanceAs (Decidable True)

/-- Canonicity of every document id of a collection. -/
def CanonicalColl (coll : Collection) : Prop := ∀ p ∈ coll, canonicalId p.1

instance (coll : Collection) : Decidable (CanonicalColl coll) :=
  List.decidableBAll _ coll

/-! ### The conversation wizard -/

/-- The ten conversation states of src/main.py:50-52. -/
inductive WizState where
  | ASKING_ITEM | ASKING_IMAGE_CHOICE | ASKING_PRICE | ASKING_MOQ
  | ASKING_CLOSING_TIME | ASKING_PICKUP | ASKING_PAYMENT_CHOICE
  | ASKING_PAYMENT_DETAILS | ASKING_CONFIRMATION | HANDLE_IMAGE_UPLOAD
deriving DecidableEq, Repr

/-- The integer value each state is persisted as (`range(10)` in the
source). -/
def WizState.toNat : WizState → Nat
  | .ASKING_ITEM => 0
  | .ASKING_IMAGE_CHOICE => 1
  | .ASKING_PRICE => 2
  | .ASKING_MOQ => 3
  | .ASKING_CLOSING_TIME => 4
  | .ASKING_PICKUP => 5
  | .ASKING_PAYMENT_CHOICE => 6
  | .ASKING_PAYMENT_DETAILS => 7
  | .ASKING_CONFIRMATION => 8
  | .HANDLE_IMAGE_UPLOAD => 9

/-- The ten states in their `range(10)` order. -/
def wizStates : List WizState :=
  [.ASKING_ITEM, .ASKING_IMAGE_CHOICE, .ASKING_PRICE, .ASKING_MOQ,
   .ASKING_CLOSING_TIME, .ASKING_PICKUP, .ASKING_PAYMENT_CHOICE,
   .ASKING_PAYMENT_DETAILS, .ASKING_CONFIRMATION, .HANDLE_IMAGE_UPLOAD]

/-- Decode a persisted `currentState` value back into a wizard state; an
explicit `null` (ended) or anything unrecognisable decodes to `none`,
exactly as the framework treats a missing or `None` conversation entry. -/
def decodeState : FValue → Option WizState
  | FValue.int (Int.ofNat n) => wizStates.get? n
  | _ => none

/-- The active conversation state of a participant, as the framework sees
it after loading `get_conversations`: an absent key and a key stored with
the `null` (ended) value both yield no active conversation. -/
def activeState (convs : List (List Int × FValue)) (uid : Int) : Option WizState :=
  match klookup convs [uid] with
  | none => none
  | some v => decodeState v

/-- One inbound private-chat event, already classified the way the
handler filters of src/main.py:1006-1030 classify updates: plain text
(`filters.TEXT & ~filters.COMMAND`), a command, a photo, or an inline
button press carrying its callback payload. -/
inductive Ev where
  | msgText (t : String)
  | msgCommand (c : String)
  | msgPhoto (fileId : String)
  | callback (data : String)
deriving DecidableEq, Repr

/-- The handler functions registered on the conversation handler. -/
inductive HandlerId where
  | hNewbuyStartDm | hStartSetup | hItem | hImageChoice | hImageUpload
  | hSkipImage | hPrice | hMoq | hClosing | hPickup | hPayChoice
  | hPayDetails | hSkipPayDetails | hConfirmation | hCancel | hUnexpected
deriving DecidableEq, Repr

/-- Group-origin context stored in shared bot data by
`newbuy_command_group` under the key `group_info_<user-id>`. -/
structure GroupInfo where
  group_chat_id : Int
  group_name : String
deriving DecidableEq, Repr

/-- The in-memory state a handler can read and mutate:
`context.user_data` (the scratch mapping) and the handoff portion of
`context.bot_data`. -/
structure Ctx where
  user_data : List (String × FValue)
  bot_data : List (String × GroupInfo)
deriving DecidableEq, Repr

/-- Outbound effects of one handler run.  Message texts are representative
fragments of the source prompts (interpolated debug payloads and the long
group-post caption are elided; no claim depends on them). -/
inductive Effect where
  | answerCb
  | reply (text : String)
  | editMessage (text : String)
  | sendMessage (chatId : Int) (text : String)
  | sendPhoto (chatId : Int) (fileId : String) (caption : String)
  | sendDm (userId : Int) (text : String)
  | saveOfferRecord (groupBuyId : String) (record : List (String × FValue))
deriving DecidableEq, Repr

/-- Result of one handler: new context, next conversation state (`none`
models `ConversationHandler.END`) and emitted effects. -/
structure HRes where
  ctx : Ctx
  conv : Option WizState
  effects : List Effect
deriving DecidableEq, Repr

/-- Per-invocation environment of the final confirmation handler: the
acting user, the generated group-buy id, and the outcomes of the group
post delivery and of the Firestore save. -/
structure Env where
  uid : Int
  username : Option String
  gbid : String
  msgId : Int
  sendOk : Bool
  saveOk : Bool
deriving DecidableEq, Repr

/-- Static fragment of the recovery message of `handle_unexpected_state`
(src/main.py:391-395); it names the `/newbuy` restart trigger.  The
interpolated debug preview is elided. -/
def recoveryText : String :=
  "Sorry, something unexpected happened or I lost track of our conversation. Please restart the process using /newbuy."

def promptItemText : String := "What are you selling?"
def promptPriceText : String := "What is the price per unit?"

/-- `handle_unexpected_state` (src/main.py:368-419): reply with the
recovery message, clear the scratch mapping, end the conversation. -/
def handle_unexpected_state (ctx : Ctx) : HRes :=
  ⟨⟨[], ctx.bot_data⟩, none, [Effect.reply recoveryText]⟩

/-- `newbuy_start_dm` (src/main.py:422-441): clear scratch (including the
group keys), ask the first question, move to `ASKING_ITEM`. -/
def newbuy_start_dm (ctx : Ctx) : HRes :=
  ⟨⟨[], ctx.bot_data⟩, some .ASKING_ITEM, [Effect.reply promptItemText]⟩

/-- `start_setup_callback` (src/main.py:444-489): read and remove the
handoff record `group_info_<uid>` from shared data, clear scratch, seed it
with the origin context when the record was found (a missing record is
logged and the flow proceeds without origin context), edit the prompt and
move to `ASKING_ITEM`. -/
def start_setup_callback (uid : Int) (ctx : Ctx) : HRes :=
  let key := "group_info_" ++ toString uid
  match alookup ctx.bot_data key with
  | some gi =>
      ⟨⟨[("group_chat_id", FValue.int gi.group_chat_id),
         ("group_name", FValue.str gi.group_name)],
        aremove ctx.bot_data key⟩,
       some .ASKING_ITEM,
       [Effect.answerCb, Effect.editMessage promptItemText]⟩
  | none =>
      ⟨⟨[], ctx.bot_data⟩, some .ASKING_ITEM,
       [Effect.answerCb, Effect.editMessage promptItemText]⟩

/-- `received_item` (src/main.py:491-504). -/
def received_item (ctx : Ctx) (t : String) : HRes :=
  ⟨⟨aupsert ctx.user_data "item_name" (FValue.str t), ctx.bot_data⟩,
   some .ASKING_IMAGE_CHOICE,
   [Effect.reply ("Got it: " ++ t ++ ". Would you like to upload a product image?")]⟩

/-- `received_image_choice` (src/main.py:506-524): `img_upload` records the
wish and waits for the upload; anything else (the `img_skip` branch of the
source `else`) records the skip with an explicit `None` image reference
and moves straight to the price question. -/
def received_image_choice (ctx : Ctx) (choice : String) : HRes :=
  if choice = "img_upload" then
    ⟨⟨aupsert ctx.user_data "wants_image" (FValue.boolean true), ctx.bot_data⟩,
     some .HANDLE_IMAGE_UPLOAD,
     [Effect.answerCb, Effect.editMessage "Okay, please upload the product image now."]⟩
  else
    let ud := aupsert (aupsert ctx.user_data "wants_image" (FValue.boolean false))
      "image_file_id" FValue.null
    ⟨⟨ud, ctx.bot_data⟩, some .ASKING_PRICE,
     [Effect.answerCb, Effect.editMessage "Okay, skipping image upload.",
      Effect.reply promptPriceText]⟩

/-- `received_image_upload` (src/main.py:526-544): a photo stores the file
id and advances; a non-empty text other than `/skip_image` re-prompts in
place, as does any other input. -/
def received_image_upload (ctx : Ctx) (ev : Ev) : HRes :=
  match ev with
  | .msgPhoto fid =>
      ⟨⟨aupsert ctx.user_data "image_file_id" (FValue.str fid), ctx.bot_data⟩,
       some .ASKING_PRICE,
       [Effect.reply "Image received!", Effect.reply promptPriceText]⟩
  | .msgText t =>
      if t ≠ "" ∧ (lowerStr t) ≠ "/skip_image" then
        ⟨ctx, some .HANDLE_IMAGE_UPLOAD,
         [Effect.reply "That does not look like an image. Please upload a photo or type /skip_image to continue without one."]⟩
      else
        ⟨ctx, some .HANDLE_IMAGE_UPLOAD,
         [Effect.reply "Invalid input. Please upload a photo or type /skip_image."]⟩
  | _ =>
      ⟨ctx, some .HANDLE_IMAGE_UPLOAD,
       [Effect.reply "Invalid input. Please upload a photo or type /skip_image."]⟩

/-- `skip_image_command` (src/main.py:546-554). -/
def skip_image_command (ctx : Ctx) : HRes :=
  let ud := aupsert (aupsert ctx.user_data "wants_image" (FValue.boolean false))
    "image_file_id" FValue.null
  ⟨⟨ud, ctx.bot_data⟩, some .ASKING_PRICE,
   [Effect.reply "Okay, skipping image upload.", Effect.reply promptPriceText]⟩

/-- `received_price` (src/main.py:556-567). -/
def received_price (ctx : Ctx) (t : String) : HRes :=
  ⟨⟨aupsert ctx.user_data "price" (FValue.str t), ctx.bot_data⟩,
   some .ASKING_MOQ,
   [Effect.reply "What is the minimum order quantity (MOQ)?"]⟩

/-- `received_moq` (src/main.py:569-580). -/
def received_moq (ctx : Ctx) (t : String) : HRes :=
  ⟨⟨aupsert ctx.user_data "moq" (FValue.str t), ctx.bot_data⟩,
   some .ASKING_CLOSING_TIME,
   [Effect.reply "When should we close this group buy?"]⟩

/-- `received_closing_time` (src/main.py:582-593). -/
def received_closing_time (ctx : Ctx) (t : String) : HRes :=
  ⟨⟨aupsert ctx.user_data "closing_time" (FValue.str t), ctx.bot_data⟩,
   some .ASKING_PICKUP,
   [Effect.reply "Where is the pickup location?"]⟩

/-- `received_pickup` (src/main.py:595-608). -/
def received_pickup (ctx : Ctx) (t : String) : HRes :=
  ⟨⟨aupsert ctx.user_data "pickup" (FValue.str t), ctx.bot_data⟩,
   some .ASKING_PAYMENT_CHOICE,
   [Effect.reply "How would you like to collect payment?"]⟩

/-- `received_payment_choice` (src/main.py:610-629): `pay_digital` records
the method and asks for details; anything else (the `pay_manual` branch of
the source `else`) records manual collection with an explicit `None`
detail and shows the confirmation summary. -/
def show_confirmation (ctx : Ctx) : HRes :=
  ⟨ctx, some .ASKING_CONFIRMATION,
   [Effect.reply "Okay, let us review your group buy. Ready to go?"]⟩

def received_payment_choice (ctx : Ctx) (choice : String) : HRes :=
  if choice = "pay_digital" then
    ⟨⟨aupsert ctx.user_data "payment_method" (FValue.str "Digital"), ctx.bot_data⟩,
     some .ASKING_PAYMENT_DETAILS,
     [Effect.answerCb,
      Effect.editMessage "Okay, digital payment selected. Please upload your PayNow QR code image, or reply with your PayNow UEN or phone number."]⟩
  else
    let ud := aupsert (aupsert ctx.user_data "payment_method" (FValue.str "Manual"))
      "payment_details" FValue.null
    let r := show_confirmation ⟨ud, ctx.bot_data⟩
    ⟨r.ctx, r.conv,
     Effect.answerCb :: Effect.editMessage "Okay, payment will be collected manually." :: r.effects⟩

/-- `received_payment_details` (src/main.py:631-659): a photo stores the
QR file id and the fixed detail string; a non-empty text other than
`/skip_payment_details` stores the text; anything else re-prompts in
place. -/
def received_payment_details (ctx : Ctx) (ev : Ev) : HRes :=
  match ev with
  | .msgPhoto fid =>
      let ud := aupsert (aupsert ctx.user_data "payment_details"
        (FValue.str "PayNow QR Code provided")) "payment_qr_file_id" (FValue.str fid)
      let r := show_confirmation ⟨ud, ctx.bot_data⟩
      ⟨r.ctx, r.conv, Effect.reply "PayNow QR received." :: r.effects⟩
  | .msgText t =>
      if t ≠ "" ∧ (lowerStr t) ≠ "/skip_payment_details" then
        let ud := aupsert (aupsert ctx.user_data "payment_details" (FValue.str t))
          "payment_qr_file_id" FValue.null
        let r := show_confirmation ⟨ud, ctx.bot_data⟩
        ⟨r.ctx, r.conv, Effect.reply "PayNow details received." :: r.effects⟩
      else
        ⟨ctx, some .ASKING_PAYMENT_DETAILS,
         [Effect.reply "Invalid input. Please upload a PayNow QR image, enter your UEN or phone number, or type /skip_payment_details."]⟩
  | _ =>
      ⟨ctx, some .ASKING_PAYMENT_DETAILS,
       [Effect.reply "Invalid input. Please upload a PayNow QR image, enter your UEN or phone number, or type /skip_payment_details."]⟩

/-- `skip_payment_details_command` (src/main.py:661-667). -/
def skip_payment_details_command (ctx : Ctx) : HRes :=
  let ud := aupsert (aupsert ctx.user_data "payment_details"
    (FValue.str "Details to be provided later by organizer")) "payment_qr_file_id" FValue.null
  let r := show_confirmation ⟨ud, ctx.bot_data⟩
  ⟨r.ctx, r.conv, Effect.reply "Okay, skipping payment details for now." :: r.effects⟩

/-- `cancel_conversation` (src/main.py:841-858). -/
def cancel_conversation (ctx : Ctx) : HRes :=
  ⟨⟨[], ctx.bot_data⟩, none,
   [Effect.reply "Okay, the group buy setup has been cancelled."]⟩

/-- Python `str()` of a scratch value (used by `str(moq).lower()`). -/
def FValue.toPyStr : FValue → String
  | .null => "None"
  | .int n => toString n
  | .str s => s
  | .boolean b => if b then "True" else "False"
  | .serverTimestamp => "SERVER_TIMESTAMP"

/-- The `group_chat_id` scratch entry under Python truthiness
(`if group_chat_id:` — `None` and `0` are falsy). -/
def groupChatOf (ud : List (String × FValue)) : Option Int :=
  match dget ud "group_chat_id" FValue.null with
  | FValue.int g => if g = 0 then none else some g
  | _ => none

/-- The `firestore_group_buy_data` dictionary assembled by
`received_confirmation` (src/main.py:733-756), field by field with the
same `user_data.get` defaults.  An unset optional value is the explicit
`null` here. -/
def assembleOffer (env : Env) (ud : List (String × FValue)) : List (String × FValue) :=
  let moqv := dget ud "moq" (FValue.str "N/A")
  [("group_id", FValue.str env.gbid),
   ("itemName", dget ud "item_name" (FValue.str "N/A")),
   ("itemPrice", dget ud "price_numeric" (dget ud "price" (FValue.str "N/A"))),
   ("currency", dget ud "currency" (FValue.str "SGD")),
   ("description", dget ud "description" (FValue.str "")),
   ("imageFileId", dget ud "image_file_id" FValue.null),
   ("initiatorUserId", FValue.str (toString env.uid)),
   ("initiatorUsername", FValue.str (env.username.getD "")),
   ("createdAt", FValue.serverTimestamp),
   ("deadline", dget ud "closing_time" (FValue.str "N/A")),
   ("status", FValue.str "open"),
   ("minParticipants",
     dget ud "moq_numeric" (if lowerStr moqv.toPyStr = "no moq" then FValue.int 0 else moqv)),
   ("maxParticipants", dget ud "max_participants" (FValue.int 0)),
   ("currentParticipantCount", FValue.int 0),
   ("currentQuantityCount", FValue.int 0),
   ("pickupAddress", dget ud "pickup" (FValue.str "N/A")),
   ("paymentMethod", dget ud "payment_method" (FValue.str "N/A")),
   ("paymentDetails", dget ud "payment_details" (FValue.str "N/A")),
   ("paymentQRFileID", dget ud "payment_qr_file_id" FValue.null),
   ("telegramGroupChatID",
     match groupChatOf ud with
     | some g => FValue.str (toString g)
     | none => FValue.null),
   ("telegramGroupName", dget ud "group_name" FValue.null),
   ("telegramPostMessageID", FValue.null)]

/-- The cleaning step of src/main.py:757: drop every field whose value is
`None`. -/
def cleanOffer (record : List (String × FValue)) : List (String × FValue) :=
  record.filter (fun kv => kv.2 ≠ FValue.null)

def postCaptionText : String := "New Group Buy! Click below to order or see details!"

/-- `received_confirmation` (src/main.py:708-839).  On `confirm_post` the
offer record is assembled and cleaned; when a group chat is known the post
is sent there (a photo post when an image file id is set), on delivered
post the cleaned record gains `telegramPostMessageID` and is written to
the `groupBuys` collection when the save succeeds; without a group chat
nothing is written.  On any other payload (the `confirm_cancel` branch of
the source `else`) the setup is cancelled.  Both branches clear the
scratch mapping and end the conversation. -/
def received_confirmation (env : Env) (ctx : Ctx) (choice : String) : HRes :=
  if choice = "confirm_post" then
    let ud := ctx.user_data
    let record := assembleOffer env ud
    let cleaned := cleanOffer record
    match groupChatOf ud with
    | some g =>
        let postEffect :=
          match dget ud "image_file_id" FValue.null with
          | FValue.str fid => Effect.sendPhoto g fid postCaptionText
          | _ => Effect.sendMessage g postCaptionText
        if env.sendOk then
          let qrEffects :=
            if dget ud "payment_method" (FValue.str "N/A") = FValue.str "Digital" then
              match dget ud "payment_qr_file_id" FValue.null with
              | FValue.str qr => [Effect.sendPhoto g qr "PayNow QR for payment."]
              | _ => []
            else []
          let withMsgId := aupsert cleaned "telegramPostMessageID"
            (FValue.str (toString env.msgId))
          let tailEffects :=
            if env.saveOk then
              [Effect.saveOfferRecord env.gbid withMsgId,
               Effect.editMessage "Done! I have posted the group buy in the group."]
            else
              [Effect.editMessage "Posted to group, but failed to save details to database."]
          ⟨⟨[], ctx.bot_data⟩, none,
           Effect.answerCb :: postEffect :: (qrEffects ++ tailEffects)⟩
        else
          ⟨⟨[], ctx.bot_data⟩, none,
           [Effect.answerCb, postEffect,
            Effect.editMessage "Error: I could not post to the group."]⟩
    | none =>
        ⟨⟨[], ctx.bot_data⟩, none,
         [Effect.answerCb,
          Effect.editMessage "Setup complete! Group buy is ready."]⟩
  else
    ⟨⟨[], ctx.bot_data⟩, none,
     [Effect.answerCb, Effect.editMessage "Okay, group buy setup cancelled."]⟩

/-- Outcome of the direct message `newbuy_command_group` tries to send. -/
inductive DmResult where
  | delivered | forbidden | otherError
deriving DecidableEq, Repr

/-- `newbuy_command_group` (src/main.py:861-900): clear scratch, store the
handoff record `group_info_<uid>` in shared data, try the private
notification carrying the start button.  When the DM cannot be delivered
(`Forbidden`) or errors out, the handoff record is popped again and the
group is told to remediate; on success the group gets a confirmation. -/
def newbuy_command_group (uid : Int) (chatId : Int) (chatTitle : Option String)
    (dm : DmResult) (ctx : Ctx) : Ctx × List Effect :=
  let key := "group_info_" ++ toString uid
  let info : GroupInfo := ⟨chatId, chatTitle.getD "this group"⟩
  let bd := aupsert ctx.bot_data key info
  match dm with
  | .delivered =>
      (⟨[], bd⟩,
       [Effect.sendDm uid "You started a new group buy. Click the button below to start setting it up here.",
        Effect.sendMessage chatId "Okay, I have sent you a DM to continue setting up the group buy!"])
  | .forbidden =>
      (⟨[], aremove bd key⟩,
       [Effect.sendMessage chatId "Sorry, I could not send you a DM. Please start a chat with me directly and then send /newbuy there to continue."])
  | .otherError =>
      (⟨[], aremove bd key⟩,
       [Effect.sendMessage chatId "Sorry, an error occurred trying to contact you privately."])

/-! ### Dispatch of the configured conversation handler

The handler table below is the `ConversationHandler` configuration of
src/main.py:1001-1033.  The dispatch rule is the one the framework
(python-telegram-bot `ConversationHandler.check_update`) applies to it:
with no active conversation only the entry points are consulted and an
unmatched update is left unhandled; with an active conversation the
current state's handlers are consulted first and the fallbacks (the
`/cancel` command, then a catch-all message handler, then a catch-all
callback handler) only afterwards. -/

/-- The per-state handler table (`states=` of src/main.py:1006-1025); the
two branch points accept exactly their fixed token sets, mirroring the
anchored regular expressions of the source. -/
def stateHandlerFor : WizState → Ev → Option HandlerId
  | .ASKING_ITEM, .msgText _ => some .hItem
  | .ASKING_IMAGE_CHOICE, .callback d =>
      if d = "img_upload" ∨ d = "img_skip" then some .hImageChoice else none
  | .HANDLE_IMAGE_UPLOAD, .msgPhoto _ => some .hImageUpload
  | .HANDLE_IMAGE_UPLOAD, .msgCommand c =>
      if c = "skip_image" then some .hSkipImage else none
  | .HANDLE_IMAGE_UPLOAD, .msgText _ => some .hImageUpload
  | .ASKING_PRICE, .msgText _ => some .hPrice
  | .ASKING_MOQ, .msgText _ => some .hMoq
  | .ASKING_CLOSING_TIME, .msgText _ => some .hClosing
  | .ASKING_PICKUP, .msgText _ => some .hPickup
  | .ASKING_PAYMENT_CHOICE, .callback d =>
      if d = "pay_digital" ∨ d = "pay_manual" then some .hPayChoice else none
  | .ASKING_PAYMENT_DETAILS, .msgText _ => some .hPayDetails
  | .ASKING_PAYMENT_DETAILS, .msgPhoto _ => some .hPayDetails
  | .ASKING_PAYMENT_DETAILS, .msgCommand c =>
      if c = "skip_payment_details" then some .hSkipPayDetails else none
  | .ASKING_CONFIRMATION, .callback d =>
      if d = "confirm_post" ∨ d = "confirm_cancel" then some .hConfirmation else none
  | _, _ => none

/-- The fallback table (`fallbacks=` of src/main.py:1026-1030): the
`/cancel` command, then a message handler matching every message, then a
callback handler matching every callback. -/
def fallbackFor : Ev → Option HandlerId
  | .msgCommand c => if c = "cancel" then some .hCancel else some .hUnexpected
  | .msgText _ => some .hUnexpected
  | .msgPhoto _ => some .hUnexpected
  | .callback _ => some .hUnexpected

/-- The entry-point table (`entry_points=` of src/main.py:1002-1005): the
private `/newbuy` command and the `start_setup` button. -/
def entryFor : Ev → Option HandlerId
  | .msgCommand c => if c = "newbuy" then some .hNewbuyStartDm else none
  | .callback d => if d = "start_setup" then some .hStartSetup else none
  | _ => none

/-- Which handler, if any, receives a private-chat event. -/
def dispatchPrivate (conv : Option WizState) (ev : Ev) : Option HandlerId :=
  match conv with
  | none => entryFor ev
  | some st =>
    match stateHandlerFor st ev with
    | some h => some h
    | none => fallbackFor ev

/-- Run the selected handler on the event.  The final catch-all arm is
unreachable: `dispatchPrivate` only selects a handler whose registered
filter matches the event shape. -/
def runHandler (env : Env) (h : HandlerId) (ctx : Ctx) (ev : Ev) : HRes :=
  match h, ev with
  | .hNewbuyStartDm, _ => newbuy_start_dm ctx
  | .hStartSetup, _ => start_setup_callback env.uid ctx
  | .hItem, .msgText t => received_item ctx t
  | .hImageChoice, .callback d => received_image_choice ctx d
  | .hImageUpload, ev => received_image_upload ctx ev
  | .hSkipImage, _ => skip_image_command ctx
  | .hPrice, .msgText t => received_price ctx t
  | .hMoq, .msgText t => received_moq ctx t
  | .hClosing, .msgText t => received_closing_time ctx t
  | .hPickup, .msgText t => received_pickup ctx t
  | .hPayChoice, .callback d => received_payment_choice ctx d
  | .hPayDetails, ev => received_payment_details ctx ev
  | .hSkipPayDetails, _ => skip_payment_details_command ctx
  | .hConfirmation, .callback d => received_confirmation env ctx d
  | .hCancel, _ => cancel_conversation ctx
  | .hUnexpected, _ => handle_unexpected_state ctx
  | _, _ => handle_unexpected_state ctx

/-- Result of processing one event: new context, new conversation value,
which handler ran (`none` when the update matched nothing and was left
unhandled), and the emitted effects. -/
structure StepRes where
  ctx : Ctx
  conv : Option WizState
  handled : Option HandlerId
  effects : List Effect
deriving DecidableEq, Repr

/-- Process one private-chat event: dispatch, then run the handler.  An
unmatched event changes nothing and emits nothing. -/
def processPrivate (env : Env) (conv : Option WizState) (ctx : Ctx) (ev : Ev) : StepRes :=
  match dispatchPrivate conv ev with
  | none => ⟨ctx, conv, none, []⟩
  | some h =>
    let r := runHandler env h ctx ev
    ⟨r.ctx, r.conv, some h, r.effects⟩

/-- Conversation value plus context between events. -/
structure MachineState where
  conv : Option WizState
  ctx : Ctx
deriving DecidableEq, Repr

/-- Process a list of events in order, accumulating effects. -/
def runEvents (env : Env) : MachineState → List Ev → MachineState × List Effect
  | s, [] => (s, [])
  | s, ev :: evs =>
    let r := processPrivate env s.conv s.ctx ev
    let rest := runEvents env ⟨r.conv, r.ctx⟩ evs
    (rest.1, r.effects ++ rest.2)

/-! ### Complete valid runs of the wizard -/

/-- The choice at the image branch point. -/
inductive ImgChoice where
  | upload (fid : String)
  | skip
deriving DecidableEq, Repr

/-- The choice at the payment branch point, including the three ways to
answer the digital-details question. -/
inductive PayChoice where
  | digitalText (details : String)
  | digitalQR (fid : String)
  | digitalSkip
  | manual
deriving DecidableEq, Repr

/-- The participant inputs of one complete run in the fixed question
order. -/
structure WizardInput where
  item : String
  img : ImgChoice
  price : String
  moq : String
  closing : String
  pickup : String
  pay : PayChoice
deriving DecidableEq, Repr

/-- The event sequence of a complete valid run started with the private
`/newbuy` command, up to and including reaching the confirmation
question. -/
def wizardEvents (w : WizardInput) : List Ev :=
  [Ev.msgCommand "newbuy", Ev.msgText w.item]
  ++ (match w.img with
      | .upload fid => [Ev.callback "img_upload", Ev.msgPhoto fid]
      | .skip => [Ev.callback "img_skip"])
  ++ [Ev.msgText w.price, Ev.msgText w.moq, Ev.msgText w.closing, Ev.msgText w.pickup]
  ++ (match w.pay with
      | .digitalText d => [Ev.callback "pay_digital", Ev.msgText d]
      | .digitalQR f => [Ev.callback "pay_digital", Ev.msgPhoto f]
      | .digitalSkip => [Ev.callback "pay_digital", Ev.msgCommand "skip_payment_details"]
      | .manual => [Ev.callback "pay_manual"])

/-- Validity of the free-text answer at the digital-details question: a
Telegram text message is non-empty and, having passed the
`~filters.COMMAND` filter, is not the skip command. -/
def payOk : PayChoice → Prop
  | .digitalText d => d ≠ "" ∧ lowerStr d ≠ "/skip_payment_details"
  | _ => True

/-- The payment method string the run stores. -/
def payMethodName : PayChoice → String
  | .manual => "Manual"
  | _ => "Digital"

/-- The image reference the run stores (`null` when skipped). -/
def imgValue : ImgChoice → FValue
  | .upload fid => FValue.str fid
  | .skip => FValue.null

/-- The payment-details value the run stores (`null` under manual
collection). -/
def payDetailsValue : PayChoice → FValue
  | .digitalText d => FValue.str d
  | .digitalQR _ => FValue.str "PayNow QR Code provided"
  | .digitalSkip => FValue.str "Details to be provided later by organizer"
  | .manual => FValue.null

/-- The first offer record written to the `groupBuys` collection among the
emitted effects, if any. -/
def findSavedRecord : List Effect → Option (String × List (String × FValue))
  | [] => none
  | Effect.saveOfferRecord gbid record :: _ => some (gbid, record)
  | _ :: rest => findSavedRecord rest

/-- A field of the first saved offer record: `none` when nothing was
saved, `some none` when a record was saved without that field. -/
def savedField (effs : List Effect) (k : String) : Option (Option FValue) :=
  (findSavedRecord effs).map (fun p => alookup p.2 k)

/-- The fresh machine state of a participant who never started. -/
def freshMachine : MachineState := ⟨none, ⟨[], []⟩⟩

/-- Final machine state and accumulated effects of one complete valid run
started with the private `/newbuy` command, stopping at the confirmation
question. -/
def wizardOutcome (env : Env) (w : WizardInput) : MachineState × List Effect :=
  runEvents env freshMachine (wizardEvents w)

/-- The offer record assembled from the scratch state a complete valid
run has accumulated when it reaches the confirmation question. -/
def wizardRecord (env : Env) (w : WizardInput) : List (String × FValue) :=
  assembleOffer env (wizardOutcome env w).1.ctx.user_data

/-! ### Concrete instances used by witnesses and counterexamples -/

def envA : Env := ⟨7, some "freya", "gb-1", 101, true, true⟩

def wA : WizardInput :=
  ⟨"Matcha Latte", ImgChoice.skip, "$5", "10", "Fri 6pm", "Lobby",
   PayChoice.digitalText "98765432"⟩

/-- Context of a participant who triggered `/newbuy` in a group: the
handoff record is waiting in shared data. -/
def matchaCtx : Ctx := ⟨[], [("group_info_7", ⟨-100123, "Block 5"⟩)]⟩

/-- The scenario of the specification, driven through the button entry
point with group context: item Matcha Latte, image skipped, price 5,
MOQ 10, closing Fri 6pm, pickup Lobby, manual payment, confirmed. -/
def matchaEvents : List Ev :=
  [Ev.callback "start_setup", Ev.msgText "Matcha Latte", Ev.callback "img_skip",
   Ev.msgText "$5", Ev.msgText "10", Ev.msgText "Fri 6pm", Ev.msgText "Lobby",
   Ev.callback "pay_manual", Ev.callback "confirm_post"]

def matchaRun : MachineState × List Effect := runEvents envA ⟨none, matchaCtx⟩ matchaEvents

/-- A small well-formed stored collection used by witnesses. -/
def collW : Collection :=
  [("3", ⟨some 3, some [("item_name", FValue.str "Tea")], some (FValue.int 2),
    [("joinedAt", FValue.int 4)]⟩)]

/-! ## Shared lemmas about the association-list operations -/

theorem alookup_aupdate_self {β : Type} (e : β) (l : List (String × β)) (k : String)
    (f : β → β) : alookup (aupdate e l k f) k = some (f ((alookup l k).getD e)) := by
  induction l with
  | nil => simp [aupdate, alookup]
  | cons hd tl ih =>
    obtain ⟨k0, v0⟩ := hd
    by_cases h : k0 = k <;> simp [aupdate, alookup, h, ih]

theorem alookup_aupdate_other {β : Type} (e : β) (l : List (String × β)) (k k' : String)
    (f : β → β) (h : k' ≠ k) : alookup (aupdate e l k f) k' = alookup l k' := by
  have hk : k ≠ k' := Ne.symm h
  induction l with
  | nil => simp [aupdate, alookup, hk]
  | cons hd tl ih =>
    obtain ⟨k0, v0⟩ := hd
    by_cases h0 : k0 = k
    · subst h0
      simp [aupdate, alookup, hk]
    · simp [aupdate, alookup, h0, ih]

theorem alookup_none_of_not_mem {β : Type} (l : List (String × β)) (k : String)
    (h : k ∉ l.map Prod.fst) : alookup l k = none := by
  induction l with
  | nil => rfl
  | cons hd tl ih =>
    obtain ⟨k0, v0⟩ := hd
    simp only [List.map_cons, List.mem_cons] at h
    push_neg at h
    have h0 : k0 ≠ k := Ne.symm h.1
    simp [alookup, h0, ih h.2]

theorem alookup_aremove_self {β : Type} (l : List (String × β)) (k : String)
    (hnd : (l.map Prod.fst).Nodup) : alookup (aremove l k) k = none := by
  induction l with
  | nil => rfl
  | cons hd tl ih =>
    obtain ⟨k0, v0⟩ := hd
    simp only [List.map_cons, List.nodup_cons] at hnd
    by_cases h : k0 = k
    · subst h
      simpa [aremove] using alookup_none_of_not_mem tl k0 hnd.1
    · simp [aremove, alookup, h, ih hnd.2]

theorem alookup_aremove_other {β : Type} (l : List (String × β)) (k k' : String)
    (h : k' ≠ k) : alookup (aremove l k) k' = alookup l k' := by
  have hk : k ≠ k' := Ne.symm h
  induction l with
  | nil => rfl
  | cons hd tl ih =>
    obtain ⟨k0, v0⟩ := hd
    by_cases h0 : k0 = k
    · subst h0
      simp [aremove, alookup, hk]
    · simp [aremove, alookup, h0, ih]

theorem alookup_aremove_aupsert {β : Type} (l : List (String × β)) (k : String) (v : β)
    (hnd : (l.map Prod.fst).Nodup) : alookup (aremove (aupsert l k v) k) k = none := by
  induction l with
  | nil => simp [aupsert, aremove, alookup]
  | cons hd tl ih =>
    obtain ⟨k0, v0⟩ := hd
    simp only [List.map_cons, List.nodup_cons] at hnd
    by_cases h : k0 = k
    · subst h
      simpa [aupsert, aremove] using alookup_none_of_not_mem tl k0 hnd.1
    · simp [aupsert, aremove, alookup, h, ih hnd.2]

/-! ## The claims -/

/-- C10: `update_conversation` called with an empty key tuple performs no
store write and returns normally — the guard at src/main.py:205-207 makes
the `key[0]` indexing unreachable, whatever the write-failure behaviour of
the store would have been. -/
theorem saveInstance_empty_key_noop (writeFails : Bool) (coll : Collection)
    (name : String) (new_state : Option Int) :
    update_conversation writeFails coll name [] new_state = coll := rfl

/-- C5: no persistence-adapter operation throws on a store error: each
load (scratch data, conversation instances, shared data) degrades to an
empty result when the underlying read raises, and each save whose
underlying write raises is swallowed and leaves the store unchanged —
the adapter functions are total, so the triggering request always
completes. -/
theorem persistence_error_contract :
    (∀ e : StoreErr, get_user_data (Except.error e) = []) ∧
    (∀ e : StoreErr, get_conversations (Except.error e) = []) ∧
    (∀ e : StoreErr, get_bot_data (Except.error e) = []) ∧
    (∀ stored data, update_bot_data true stored data = stored) ∧
    (∀ coll user_id data, update_user_data true coll user_id data = coll) ∧
    (∀ coll name key new_state,
      update_conversation true coll name key new_state = coll) ∧
    (∀ coll user_id, drop_user_data true coll user_id = coll) := by
  refine ⟨fun _ => rfl, fun _ => rfl, fun _ => rfl, fun _ _ => rfl,
    fun _ _ _ => rfl, fun coll name key new_state => ?_, fun _ _ => rfl⟩
  cases key <;> rfl

/-- C6: `update_user_data` (the `saveScratch` operation) upserts the
scratch sub-field of the participant's record only: the record exists
afterwards (never deleted), its conversation-state sub-field and its
unrelated fields are untouched, empty data overwrites the sub-field with
an explicit empty mapping, and every other record is untouched. -/
theorem saveScratch_frame (coll : Collection) (user_id : Int)
    (data : List (String × FValue)) :
    (∃ d : UserDoc,
      alookup (update_user_data false coll user_id data) (toString user_id) = some d ∧
      d.currentState = ((alookup coll (toString user_id)).getD emptyDoc).currentState ∧
      d.extra = ((alookup coll (toString user_id)).getD emptyDoc).extra ∧
      d.pendingData = some (if data.isEmpty then []
        else mergeFields ((((alookup coll (toString user_id)).getD emptyDoc).pendingData).getD [])
          data) ∧
      (data = [] → d.pendingData = some [])) ∧
    (∀ other, other ≠ toString user_id →
      alookup (update_user_data false coll user_id data) other = alookup coll other) := by
  have hself := alookup_aupdate_self emptyDoc coll (toString user_id)
    (fun doc =>
      { doc with
        telegramUserId := some user_id
        pendingData :=
          some (if data.isEmpty then [] else mergeFields (doc.pendingData.getD []) data) })
  constructor
  · exact ⟨_, hself, rfl, rfl, rfl, fun h => by subst h; rfl⟩
  · intro other hother
    exact alookup_aupdate_other emptyDoc coll (toString user_id) other _ hother

/-- C6 witness: a concrete store, participant and scratch payload. -/
theorem saveScratch_frame_witness :
    ∃ d : UserDoc,
      alookup (update_user_data false collW 3 [("price", FValue.str "$5")]) (toString (3 : Int))
        = some d ∧
      d.currentState = ((alookup collW (toString (3 : Int))).getD emptyDoc).currentState ∧
      d.extra = ((alookup collW (toString (3 : Int))).getD emptyDoc).extra ∧
      d.pendingData = some (if ([("price", FValue.str "$5")] : List (String × FValue)).isEmpty
        then []
        else mergeFields ((((alookup collW (toString (3 : Int))).getD emptyDoc).pendingData).getD [])
          [("price", FValue.str "$5")]) ∧
      (([("price", FValue.str "$5")] : List (String × FValue)) = [] → d.pendingData = some []) :=
  (saveScratch_frame collW 3 [("price", FValue.str "$5")]).1

/-- C7: `drop_user_data` (the `dropParticipant` operation) resets the
participant's scratch sub-field to an explicit empty mapping and the
conversation-state sub-field to the explicit ended value (`null`), while
leaving the unrelated fields of the same record and every other record
unchanged. -/
theorem dropParticipant_frame (coll : Collection) (user_id : Int) :
    (∃ d : UserDoc,
      alookup (drop_user_data false coll user_id) (toString user_id) = some d ∧
      d.pendingData = some [] ∧
      d.currentState = some FValue.null ∧
      d.extra = ((alookup coll (toString user_id)).getD emptyDoc).extra) ∧
    (∀ other, other ≠ toString user_id →
      alookup (drop_user_data false coll user_id) other = alookup coll other) := by
  have hself := alookup_aupdate_self emptyDoc coll (toString user_id)
    (fun doc =>
      { doc with
        telegramUserId := some user_id
        pendingData := some []
        currentState := some FValue.null })
  constructor
  · exact ⟨_, hself, rfl, rfl, rfl⟩
  · intro other hother
    exact alookup_aupdate_other emptyDoc coll (toString user_id) other _ hother

/-- C7 witness: a concrete store and participant. -/
theorem dropParticipant_frame_witness :
    ∃ d : UserDoc,
      alookup (drop_user_data false collW 3) (toString (3 : Int)) = some d ∧
      d.pendingData = some [] ∧
      d.currentState = some FValue.null ∧
      d.extra = ((alookup collW (toString (3 : Int))).getD emptyDoc).extra :=
  (dropParticipant_frame collW 3).1

theorem conv_lookup_aux (user_id : Int) (v : FValue)
    (hr : parseIntId (toString user_id) = some user_id) :
    ∀ coll : Collection, CanonicalColl coll →
      klookup ((aupdate emptyDoc coll (toString user_id)
          (fun doc =>
            { doc with
              telegramUserId := some user_id
              currentState := some v })).filterMap convEntry) [user_id]
        = some v := by
  intro coll
  induction coll with
  | nil =>
    intro _
    simp [aupdate, convEntry, hr, klookup]
  | cons hd tl ih =>
    intro hc
    obtain ⟨k0, d0⟩ := hd
    have hctl : CanonicalColl tl := fun p hp => hc p (List.mem_cons_of_mem _ hp)
    have hc0 : canonicalId k0 := hc (k0, d0) (List.mem_cons_self _ _)
    by_cases hk : k0 = toString user_id
    · subst hk
      simp [aupdate, convEntry, hr, klookup]
    · simp only [aupdate, if_neg hk, List.filterMap_cons]
      cases hj : parseIntId k0 with
      | none =>
        simpa [convEntry, hj] using ih hctl
      | some j =>
        cases hst : d0.currentState with
        | none =>
          simpa [convEntry, hj, hst] using ih hctl
        | some st =>
          have hkj : k0 = toString j := by
            have h0 := hc0
            unfold canonicalId at h0
            rw [hj] at h0
            exact h0
          have hjuid : j ≠ user_id := by
            intro hh
            exact hk (hh ▸ hkj)
          simpa [convEntry, hj, hst, klookup, hjuid] using ih hctl

/-- C3: the `saveInstance`/`loadAllInstances` round-trip.  For every
well-formed stored collection (unique, canonically rendered document
ids), conversation name, participant and state — including the explicit
ended state (`None`, stored as `null`) — saving and then loading yields a
mapping that contains the key `(user_id,)` with exactly the stored value,
while a never-started participant contributes no key at all (load of an
empty store). -/
theorem saveInstance_roundtrip (coll : Collection) (name : String) (user_id : Int)
    (new_state : Option Int)
    (_hnd : (coll.map Prod.fst).Nodup) (hc : CanonicalColl coll)
    (hr : parseIntId (toString user_id) = some user_id) :
    klookup (get_conversations (Except.ok
        (update_conversation false coll name [user_id] new_state))) [user_id]
      = some (encodeState new_state) ∧
    klookup (get_conversations (Except.ok ([] : Collection))) [user_id] = none := by
  refine ⟨?_, rfl⟩
  exact conv_lookup_aux user_id (encodeState new_state) hr coll hc

/-- C3 witness: a concrete store holding a live conversation for
participant 3, into which the ended state of participant 5 is saved and
loaded back as an explicitly present `null`. -/
theorem saveInstance_roundtrip_witness :
    klookup (get_conversations (Except.ok
        (update_conversation false collW "newbuy_conversation" [5] none))) [5]
      = some (encodeState none) ∧
    klookup (get_conversations (Except.ok ([] : Collection))) [5] = none :=
  saveInstance_roundtrip collW "newbuy_conversation" 5 none
    (by decide) (by decide) (by decide)

/-- C8: when the shared-scope entry has written the handoff record for a
participant and the private notification cannot be delivered (the
`Forbidden` branch, or any other send error), the handoff record is
removed again before the handler finishes, a remediation message is sent
to the group, and no offer record is written by this path. -/
theorem group_entry_dm_failure_cleanup (user_id chatId : Int) (chatTitle : Option String)
    (dm : DmResult) (ctx : Ctx)
    (hnd : (ctx.bot_data.map Prod.fst).Nodup)
    (hdm : dm ≠ DmResult.delivered) :
    alookup (newbuy_command_group user_id chatId chatTitle dm ctx).1.bot_data
        ("group_info_" ++ toString user_id) = none ∧
    (∃ t, Effect.sendMessage chatId t ∈ (newbuy_command_group user_id chatId chatTitle dm ctx).2) ∧
    findSavedRecord (newbuy_command_group user_id chatId chatTitle dm ctx).2 = none ∧
    (∀ g record,
      Effect.saveOfferRecord g record ∉ (newbuy_command_group user_id chatId chatTitle dm ctx).2) := by
  have hrm := alookup_aremove_aupsert ctx.bot_data ("group_info_" ++ toString user_id)
    (⟨chatId, chatTitle.getD "this group"⟩ : GroupInfo) hnd
  cases dm with
  | delivered => exact absurd rfl hdm
  | forbidden =>
    refine ⟨hrm, ?_, rfl, ?_⟩
    · simp [newbuy_command_group]
    · intro g record
      simp [newbuy_command_group]
  | otherError =>
    refine ⟨hrm, ?_, rfl, ?_⟩
    · simp [newbuy_command_group]
    · intro g record
      simp [newbuy_command_group]

/-- C8 witness: a concrete participant whose DM bounces with
`Forbidden`. -/
theorem group_entry_dm_failure_cleanup_witness :
    alookup (newbuy_command_group 7 (-100123) (some "Block 5") DmResult.forbidden matchaCtx).1.bot_data
        ("group_info_" ++ toString (7 : Int)) = none ∧
    (∃ t, Effect.sendMessage (-100123) t
        ∈ (newbuy_command_group 7 (-100123) (some "Block 5") DmResult.forbidden matchaCtx).2) ∧
    findSavedRecord (newbuy_command_group 7 (-100123) (some "Block 5") DmResult.forbidden matchaCtx).2
        = none ∧
    (∀ g record, Effect.saveOfferRecord g record
        ∉ (newbuy_command_group 7 (-100123) (some "Block 5") DmResult.forbidden matchaCtx).2) :=
  group_entry_dm_failure_cleanup 7 (-100123) (some "Block 5") DmResult.forbidden matchaCtx
    (by decide) (by decide)

/-- C9: the private-scope entry (`start_setup_callback`) consumes the
handoff record: it is absent from shared data afterwards while unrelated
shared keys are untouched; when it was found, the cleared scratch state is
seeded with exactly the origin chat id and display name; when it was
absent, the flow proceeds with empty scratch (a logged warning in the
source) — in both cases the conversation moves to the first question. -/
theorem private_entry_handoff_consume (env : Env) (ctx : Ctx)
    (hnd : (ctx.bot_data.map Prod.fst).Nodup) :
    (start_setup_callback env.uid ctx).conv = some WizState.ASKING_ITEM ∧
    alookup (start_setup_callback env.uid ctx).ctx.bot_data
        ("group_info_" ++ toString env.uid) = none ∧
    (∀ k, k ≠ "group_info_" ++ toString env.uid →
      alookup (start_setup_callback env.uid ctx).ctx.bot_data k = alookup ctx.bot_data k) ∧
    (∀ gi, alookup ctx.bot_data ("group_info_" ++ toString env.uid) = some gi →
      (start_setup_callback env.uid ctx).ctx.user_data =
        [("group_chat_id", FValue.int gi.group_chat_id),
         ("group_name", FValue.str gi.group_name)]) ∧
    (alookup ctx.bot_data ("group_info_" ++ toString env.uid) = none →
      (start_setup_callback env.uid ctx).ctx.user_data = []) := by
  cases hfound : alookup ctx.bot_data ("group_info_" ++ toString env.uid) with
  | none =>
    refine ⟨?_, ?_, ?_, ?_, ?_⟩ <;>
      simp [start_setup_callback, hfound]
  | some gi =>
    refine ⟨?_, ?_, ?_, ?_, ?_⟩
    · simp [start_setup_callback, hfound]
    · simpa [start_setup_callback, hfound] using
        alookup_aremove_self ctx.bot_data ("group_info_" ++ toString env.uid) hnd
    · intro k hk
      simpa [start_setup_callback, hfound] using
        alookup_aremove_other ctx.bot_data ("group_info_" ++ toString env.uid) k hk
    · intro gi2 hgi2
      cases hgi2
      simp [start_setup_callback, hfound]
    · intro habs
      exact Option.noConfusion habs

/-- C9 witness: the handoff record of participant 7 is present and
consumed. -/
theorem private_entry_handoff_consume_witness :
    (start_setup_callback envA.uid matchaCtx).conv = some WizState.ASKING_ITEM ∧
    alookup (start_setup_callback envA.uid matchaCtx).ctx.bot_data
        ("group_info_" ++ toString envA.uid) = none :=
  ⟨(private_entry_handoff_consume envA matchaCtx (by decide)).1,
   (private_entry_handoff_consume envA matchaCtx (by decide)).2.1⟩

/-- C2 counterexample: after a completed confirmation the conversation is
persisted as the explicit ended value (`null`) and the scratch state is
cleared.  Replaying the terminal `confirm_post` callback then matches no
entry point and no active conversation, so the configured handler leaves
the update entirely unhandled: no handler runs — in particular not the
lost-context fallback, contradicting the claim that the replay is routed
there — and no recovery message is sent. -/
theorem duplicate_confirmation_counterexample :
    klookup (get_conversations (Except.ok
        (update_conversation false [] "newbuy_conversation" [7] none))) [7]
      = some FValue.null ∧
    activeState (get_conversations (Except.ok
        (update_conversation false [] "newbuy_conversation" [7] none))) 7 = none ∧
    (processPrivate envA none ⟨[], []⟩ (Ev.callback "confirm_post")).handled = none ∧
    (processPrivate envA none ⟨[], []⟩ (Ev.callback "confirm_post")).handled
      ≠ some HandlerId.hUnexpected ∧
    (processPrivate envA none ⟨[], []⟩ (Ev.callback "confirm_post")).effects = [] := by
  decide

/-- C2 amended: replaying the terminal confirmation event after the
Scratch State is cleared and the Conversation Instance has ended (stored
as `null`, or absent altogether) creates no second Offer Record — but it
is not routed to the lost-context fallback: the event matches no entry
point and no active conversation, so it is dropped with no handler run,
no reply and no state change. -/
theorem duplicate_confirmation_dropped (env : Env) (ctx : Ctx)
    (convs : List (List Int × FValue)) (user_id : Int)
    (h : klookup convs [user_id] = some FValue.null ∨ klookup convs [user_id] = none) :
    activeState convs user_id = none ∧
    (processPrivate env (activeState convs user_id) ctx (Ev.callback "confirm_post")).handled
      = none ∧
    (processPrivate env (activeState convs user_id) ctx (Ev.callback "confirm_post")).ctx = ctx ∧
    (processPrivate env (activeState convs user_id) ctx (Ev.callback "confirm_post")).conv
      = none ∧
    (processPrivate env (activeState convs user_id) ctx (Ev.callback "confirm_post")).effects
      = [] ∧
    findSavedRecord
        (processPrivate env (activeState convs user_id) ctx (Ev.callback "confirm_post")).effects
      = none := by
  have ha : activeState convs user_id = none := by
    cases h with
    | inl h => simp [activeState, h, decodeState]
    | inr h => simp [activeState, h]
  rw [ha]
  exact ⟨rfl, rfl, rfl, rfl, rfl, rfl⟩

/-- C2 witness: the ended conversation of participant 7. -/
theorem duplicate_confirmation_dropped_witness :
    activeState [([7], FValue.null)] 7 = none ∧
    (processPrivate envA (activeState [([7], FValue.null)] 7) ⟨[], []⟩
        (Ev.callback "confirm_post")).handled = none :=
  ⟨(duplicate_confirmation_dropped envA ⟨[], []⟩ [([7], FValue.null)] 7
      (Or.inl (by decide))).1,
   (duplicate_confirmation_dropped envA ⟨[], []⟩ [([7], FValue.null)] 7
      (Or.inl (by decide))).2.1⟩

/-- C4 counterexample: at the image-or-skip branch point an inbound
button payload outside the fixed token set (here a stray `confirm_cancel`
press) is not re-prompted with state unchanged: it falls through to the
catch-all callback fallback (`handle_unexpected_state`), which clears the
scratch state and ends the conversation — the conversation state and the
Scratch State both change, refuting the claimed self-loop. -/
theorem branch_mismatch_counterexample :
    (processPrivate envA (some WizState.ASKING_IMAGE_CHOICE)
        ⟨[("item_name", FValue.str "Tea")], []⟩ (Ev.callback "confirm_cancel")).handled
      = some HandlerId.hUnexpected ∧
    (processPrivate envA (some WizState.ASKING_IMAGE_CHOICE)
        ⟨[("item_name", FValue.str "Tea")], []⟩ (Ev.callback "confirm_cancel")).ctx.user_data
      = [] ∧
    (processPrivate envA (some WizState.ASKING_IMAGE_CHOICE)
        ⟨[("item_name", FValue.str "Tea")], []⟩ (Ev.callback "confirm_cancel")).conv
      = none ∧
    ¬((processPrivate envA (some WizState.ASKING_IMAGE_CHOICE)
          ⟨[("item_name", FValue.str "Tea")], []⟩ (Ev.callback "confirm_cancel")).conv
        = some WizState.ASKING_IMAGE_CHOICE ∧
      (processPrivate envA (some WizState.ASKING_IMAGE_CHOICE)
          ⟨[("item_name", FValue.str "Tea")], []⟩ (Ev.callback "confirm_cancel")).ctx.user_data
        = [("item_name", FValue.str "Tea")]) := by
  decide

/-- C4 amended: at the two branch points a button payload outside the
fixed token set is not consumed by the branch handler; it is routed to
the catch-all fallback `handle_unexpected_state`, which sends the
recovery message naming the `/newbuy` restart trigger, clears the Scratch
State and ends the conversation — a full reset, not a re-prompting
self-loop. -/
theorem branch_mismatch_resets (env : Env) (ctx : Ctx) (st : WizState) (d : String)
    (h : (st = WizState.ASKING_IMAGE_CHOICE ∧ d ≠ "img_upload" ∧ d ≠ "img_skip") ∨
         (st = WizState.ASKING_PAYMENT_CHOICE ∧ d ≠ "pay_digital" ∧ d ≠ "pay_manual")) :
    (processPrivate env (some st) ctx (Ev.callback d)).handled = some HandlerId.hUnexpected ∧
    (processPrivate env (some st) ctx (Ev.callback d)).ctx.user_data = [] ∧
    (processPrivate env (some st) ctx (Ev.callback d)).conv = none ∧
    (processPrivate env (some st) ctx (Ev.callback d)).effects = [Effect.reply recoveryText] ∧
    List.IsInfix ("/newbuy".data) recoveryText.data := by
  rcases h with ⟨hst, h1, h2⟩ | ⟨hst, h1, h2⟩ <;> subst hst <;>
    refine ⟨?_, ?_, ?_, ?_, by decide⟩ <;>
    simp [processPrivate, dispatchPrivate, stateHandlerFor, fallbackFor, h1, h2,
      runHandler, handle_unexpected_state]

/-- C1 counterexample: a completed valid run in the fixed question order
(the specification's own scenario: Matcha Latte, image skipped, price $5,
MOQ 10, closing Fri 6pm, pickup Lobby, Manual payment, confirmed from a
group-originated flow with successful delivery).  The conversation ends
and an Offer Record is written, but the record handed to the sink has NO
`paymentDetails` key and NO `imageFileId` key at all: the cleaning step
`{k: v for k, v in ... if v is not None}` (src/main.py:757) removes the
unset optional fields instead of keeping them under a sentinel, refuting
"present in the record with an explicit not-set sentinel value, never
absent". -/
theorem offer_sentinel_counterexample :
    matchaRun.1.conv = none ∧
    matchaRun.1.ctx.user_data = [] ∧
    (findSavedRecord matchaRun.2).isSome = true ∧
    savedField matchaRun.2 "paymentMethod" = some (some (FValue.str "Manual")) ∧
    savedField matchaRun.2 "itemName" = some (some (FValue.str "Matcha Latte")) ∧
    savedField matchaRun.2 "paymentDetails" = some none ∧
    savedField matchaRun.2 "imageFileId" = some none := by
  decide

set_option maxHeartbeats 1000000 in
/-- Field computation of one complete valid run (helper for the C1
theorem; case upload digital text). -/
theorem offer_fields_upload_digital_text (env : Env)
    (item price moq closing pickup : String) (fid d : String)
    (h1 : d ≠ "") (h2 : lowerStr d ≠ "/skip_payment_details") :
    (wizardOutcome env ⟨item, ImgChoice.upload fid, price, moq, closing, pickup, PayChoice.digitalText d⟩).1.conv = some WizState.ASKING_CONFIRMATION ∧
    alookup (wizardRecord env ⟨item, ImgChoice.upload fid, price, moq, closing, pickup, PayChoice.digitalText d⟩) "itemName" = some (FValue.str item) ∧
    alookup (wizardRecord env ⟨item, ImgChoice.upload fid, price, moq, closing, pickup, PayChoice.digitalText d⟩) "itemPrice" = some (FValue.str price) ∧
    alookup (wizardRecord env ⟨item, ImgChoice.upload fid, price, moq, closing, pickup, PayChoice.digitalText d⟩) "deadline" = some (FValue.str closing) ∧
    alookup (wizardRecord env ⟨item, ImgChoice.upload fid, price, moq, closing, pickup, PayChoice.digitalText d⟩) "pickupAddress" = some (FValue.str pickup) ∧
    alookup (wizardRecord env ⟨item, ImgChoice.upload fid, price, moq, closing, pickup, PayChoice.digitalText d⟩) "minParticipants" =
      some (if lowerStr moq = "no moq" then FValue.int 0 else FValue.str moq) ∧
    alookup (wizardRecord env ⟨item, ImgChoice.upload fid, price, moq, closing, pickup, PayChoice.digitalText d⟩) "paymentMethod" = some (FValue.str "Digital") ∧
    alookup (wizardRecord env ⟨item, ImgChoice.upload fid, price, moq, closing, pickup, PayChoice.digitalText d⟩) "imageFileId" = some (FValue.str fid) ∧
    alookup (wizardRecord env ⟨item, ImgChoice.upload fid, price, moq, closing, pickup, PayChoice.digitalText d⟩) "paymentDetails" = some (FValue.str d) ∧
    alookup (cleanOffer (wizardRecord env ⟨item, ImgChoice.upload fid, price, moq, closing, pickup, PayChoice.digitalText d⟩)) "imageFileId" = some (FValue.str fid) ∧
    alookup (cleanOffer (wizardRecord env ⟨item, ImgChoice.upload fid, price, moq, closing, pickup, PayChoice.digitalText d⟩)) "paymentDetails" = some (FValue.str d) := by
  have hrun : (wizardOutcome env ⟨item, ImgChoice.upload fid, price, moq, closing, pickup, PayChoice.digitalText d⟩).1
      = ⟨some WizState.ASKING_CONFIRMATION,
         ⟨[("item_name", FValue.str item), ("wants_image", FValue.boolean true),
           ("image_file_id", FValue.str fid),
           ("price", FValue.str price),
           ("moq", FValue.str moq), ("closing_time", FValue.str closing),
           ("pickup", FValue.str pickup), ("payment_method", FValue.str "Digital"),
           ("payment_details", FValue.str d), ("payment_qr_file_id", FValue.null)], []⟩⟩ := by
    simp [wizardOutcome, wizardEvents, runEvents, processPrivate, dispatchPrivate,
      entryFor, stateHandlerFor, runHandler, newbuy_start_dm, received_item,
      received_image_choice, received_price, received_moq,
      received_closing_time, received_pickup, received_payment_choice,
      show_confirmation, freshMachine, aupsert, received_image_upload, received_payment_details, h1, h2]
  simp only [wizardRecord, hrun]
  by_cases hm : lowerStr moq = "no moq" <;>
    simp [assembleOffer, cleanOffer, dget, alookup, groupChatOf, FValue.toPyStr, hm]

set_option maxHeartbeats 1000000 in
/-- Field computation of one complete valid run (helper for the C1
theorem; case upload digital qr). -/
theorem offer_fields_upload_digital_qr (env : Env)
    (item price moq closing pickup : String) (fid f : String) :
    (wizardOutcome env ⟨item, ImgChoice.upload fid, price, moq, closing, pickup, PayChoice.digitalQR f⟩).1.conv = some WizState.ASKING_CONFIRMATION ∧
    alookup (wizardRecord env ⟨item, ImgChoice.upload fid, price, moq, closing, pickup, PayChoice.digitalQR f⟩) "itemName" = some (FValue.str item) ∧
    alookup (wizardRecord env ⟨item, ImgChoice.upload fid, price, moq, closing, pickup, PayChoice.digitalQR f⟩) "itemPrice" = some (FValue.str price) ∧
    alookup (wizardRecord env ⟨item, ImgChoice.upload fid, price, moq, closing, pickup, PayChoice.digitalQR f⟩) "deadline" = some (FValue.str closing) ∧
    alookup (wizardRecord env ⟨item, ImgChoice.upload fid, price, moq, closing, pickup, PayChoice.digitalQR f⟩) "pickupAddress" = some (FValue.str pickup) ∧
    alookup (wizardRecord env ⟨item, ImgChoice.upload fid, price, moq, closing, pickup, PayChoice.digitalQR f⟩) "minParticipants" =
      some (if lowerStr moq = "no moq" then FValue.int 0 else FValue.str moq) ∧
    alookup (wizardRecord env ⟨item, ImgChoice.upload fid, price, moq, closing, pickup, PayChoice.digitalQR f⟩) "paymentMethod" = some (FValue.str "Digital") ∧
    alookup (wizardRecord env ⟨item, ImgChoice.upload fid, price, moq, closing, pickup, PayChoice.digitalQR f⟩) "imageFileId" = some (FValue.str fid) ∧
    alookup (wizardRecord env ⟨item, ImgChoice.upload fid, price, moq, closing, pickup, PayChoice.digitalQR f⟩) "paymentDetails" = some (FValue.str "PayNow QR Code provided") ∧
    alookup (cleanOffer (wizardRecord env ⟨item, ImgChoice.upload fid, price, moq, closing, pickup, PayChoice.digitalQR f⟩)) "imageFileId" = some (FValue.str fid) ∧
    alookup (cleanOffer (wizardRecord env ⟨item, ImgChoice.upload fid, price, moq, closing, pickup, PayChoice.digitalQR f⟩)) "paymentDetails" = some (FValue.str "PayNow QR Code provided") := by
  have hrun : (wizardOutcome env ⟨item, ImgChoice.upload fid, price, moq, closing, pickup, PayChoice.digitalQR f⟩).1
      = ⟨some WizState.ASKING_CONFIRMATION,
         ⟨[("item_name", FValue.str item), ("wants_image", FValue.boolean true),
           ("image_file_id", FValue.str fid),
           ("price", FValue.str price),
           ("moq", FValue.str moq), ("closing_time", FValue.str closing),
           ("pickup", FValue.str pickup), ("payment_method", FValue.str "Digital"),
           ("payment_details", FValue.str "PayNow QR Code provided"),
           ("payment_qr_file_id", FValue.str f)], []⟩⟩ := by
    simp [wizardOutcome, wizardEvents, runEvents, processPrivate, dispatchPrivate,
      entryFor, stateHandlerFor, runHandler, newbuy_start_dm, received_item,
      received_image_choice, received_price, received_moq,
      received_closing_time, received_pickup, received_payment_choice,
      show_confirmation, freshMachine, aupsert, received_image_upload, received_payment_details]
  simp only [wizardRecord, hrun]
  by_cases hm : lowerStr moq = "no moq" <;>
    simp [assembleOffer, cleanOffer, dget, alookup, groupChatOf, FValue.toPyStr, hm]

set_option maxHeartbeats 1000000 in
/-- Field computation of one complete valid run (helper for the C1
theorem; case upload digital skip). -/
theorem offer_fields_upload_digital_skip (env : Env)
    (item price moq closing pickup : String) (fid : String) :
    (wizardOutcome env ⟨item, ImgChoice.upload fid, price, moq, closing, pickup, PayChoice.digitalSkip⟩).1.conv = some WizState.ASKING_CONFIRMATION ∧
    alookup (wizardRecord env ⟨item, ImgChoice.upload fid, price, moq, closing, pickup, PayChoice.digitalSkip⟩) "itemName" = some (FValue.str item) ∧
    alookup (wizardRecord env ⟨item, ImgChoice.upload fid, price, moq, closing, pickup, PayChoice.digitalSkip⟩) "itemPrice" = some (FValue.str price) ∧
    alookup (wizardRecord env ⟨item, ImgChoice.upload fid, price, moq, closing, pickup, PayChoice.digitalSkip⟩) "deadline" = some (FValue.str closing) ∧
    alookup (wizardRecord env ⟨item, ImgChoice.upload fid, price, moq, closing, pickup, PayChoice.digitalSkip⟩) "pickupAddress" = some (FValue.str pickup) ∧
    alookup (wizardRecord env ⟨item, ImgChoice.upload fid, price, moq, closing, pickup, PayChoice.digitalSkip⟩) "minParticipants" =
      some (if lowerStr moq = "no moq" then FValue.int 0 else FValue.str moq) ∧
    alookup (wizardRecord env ⟨item, ImgChoice.upload fid, price, moq, closing, pickup, PayChoice.digitalSkip⟩) "paymentMethod" = some (FValue.str "Digital") ∧
    alookup (wizardRecord env ⟨item, ImgChoice.upload fid, price, moq, closing, pickup, PayChoice.digitalSkip⟩) "imageFileId" = some (FValue.str fid) ∧
    alookup (wizardRecord env ⟨item, ImgChoice.upload fid, price, moq, closing, pickup, PayChoice.digitalSkip⟩) "paymentDetails" = some (FValue.str "Details to be provided later by organizer") ∧
    alookup (cleanOffer (wizardRecord env ⟨item, ImgChoice.upload fid, price, moq, closing, pickup, PayChoice.digitalSkip⟩)) "imageFileId" = some (FValue.str fid) ∧
    alookup (cleanOffer (wizardRecord env ⟨item, ImgChoice.upload fid, price, moq, closing, pickup, PayChoice.digitalSkip⟩)) "paymentDetails" = some (FValue.str "Details to be provided later by organizer") := by
  have hrun : (wizardOutcome env ⟨item, ImgChoice.upload fid, price, moq, closing, pickup, PayChoice.digitalSkip⟩).1
      = ⟨some WizState.ASKING_CONFIRMATION,
         ⟨[("item_name", FValue.str item), ("wants_image", FValue.boolean true),
           ("image_file_id", FValue.str fid),
           ("price", FValue.str price),
           ("moq", FValue.str moq), ("closing_time", FValue.str closing),
           ("pickup", FValue.str pickup), ("payment_method", FValue.str "Digital"),
           ("payment_details", FValue.str "Details to be provided later by organizer"),
           ("payment_qr_file_id", FValue.null)], []⟩⟩ := by
    simp [wizardOutcome, wizardEvents, runEvents, processPrivate, dispatchPrivate,
      entryFor, stateHandlerFor, runHandler, newbuy_start_dm, received_item,
      received_image_choice, received_price, received_moq,
      received_closing_time, received_pickup, received_payment_choice,
      show_confirmation, freshMachine, aupsert, received_image_upload, skip_payment_details_command]
  simp only [wizardRecord, hrun]
  by_cases hm : lowerStr moq = "no moq" <;>
    simp [assembleOffer, cleanOffer, dget, alookup, groupChatOf, FValue.toPyStr, hm]

set_option maxHeartbeats 1000000 in
/-- Field computation of one complete valid run (helper for the C1
theorem; case upload manual). -/
theorem offer_fields_upload_manual (env : Env)
    (item price moq closing pickup : String) (fid : String) :
    (wizardOutcome env ⟨item, ImgChoice.upload fid, price, moq, closing, pickup, PayChoice.manual⟩).1.conv = some WizState.ASKING_CONFIRMATION ∧
    alookup (wizardRecord env ⟨item, ImgChoice.upload fid, price, moq, closing, pickup, PayChoice.manual⟩) "itemName" = some (FValue.str item) ∧
    alookup (wizardRecord env ⟨item, ImgChoice.upload fid, price, moq, closing, pickup, PayChoice.manual⟩) "itemPrice" = some (FValue.str price) ∧
    alookup (wizardRecord env ⟨item, ImgChoice.upload fid, price, moq, closing, pickup, PayChoice.manual⟩) "deadline" = some (FValue.str closing) ∧
    alookup (wizardRecord env ⟨item, ImgChoice.upload fid, price, moq, closing, pickup, PayChoice.manual⟩) "pickupAddress" = some (FValue.str pickup) ∧
    alookup (wizardRecord env ⟨item, ImgChoice.upload fid, price, moq, closing, pickup, PayChoice.manual⟩) "minParticipants" =
      some (if lowerStr moq = "no moq" then FValue.int 0 else FValue.str moq) ∧
    alookup (wizardRecord env ⟨item, ImgChoice.upload fid, price, moq, closing, pickup, PayChoice.manual⟩) "paymentMethod" = some (FValue.str "Manual") ∧
    alookup (wizardRecord env ⟨item, ImgChoice.upload fid, price, moq, closing, pickup, PayChoice.manual⟩) "imageFileId" = some (FValue.str fid) ∧
    alookup (wizardRecord env ⟨item, ImgChoice.upload fid, price, moq, closing, pickup, PayChoice.manual⟩) "paymentDetails" = some (FValue.null) ∧
    alookup (cleanOffer (wizardRecord env ⟨item, ImgChoice.upload fid, price, moq, closing, pickup, PayChoice.manual⟩)) "imageFileId" = some (FValue.str fid) ∧
    alookup (cleanOffer (wizardRecord env ⟨item, ImgChoice.upload fid, price, moq, closing, pickup, PayChoice.manual⟩)) "paymentDetails" = none := by
  have hrun : (wizardOutcome env ⟨item, ImgChoice.upload fid, price, moq, closing, pickup, PayChoice.manual⟩).1
      = ⟨some WizState.ASKING_CONFIRMATION,
         ⟨[("item_name", FValue.str item), ("wants_image", FValue.boolean true),
           ("image_file_id", FValue.str fid),
           ("price", FValue.str price),
           ("moq", FValue.str moq), ("closing_time", FValue.str closing),
           ("pickup", FValue.str pickup), ("payment_method", FValue.str "Manual"),
           ("payment_details", FValue.null)], []⟩⟩ := by
    simp [wizardOutcome, wizardEvents, runEvents, processPrivate, dispatchPrivate,
      entryFor, stateHandlerFor, runHandler, newbuy_start_dm, received_item,
      received_image_choice, received_price, received_moq,
      received_closing_time, received_pickup, received_payment_choice,
      show_confirmation, freshMachine, aupsert, received_image_upload]
  simp only [wizardRecord, hrun]
  by_cases hm : lowerStr moq = "no moq" <;>
    simp [assembleOffer, cleanOffer, dget, alookup, groupChatOf, FValue.toPyStr, hm]

set_option maxHeartbeats 1000000 in
/-- Field computation of one complete valid run (helper for the C1
theorem; case skip digital text). -/
theorem offer_fields_skip_digital_text (env : Env)
    (item price moq closing pickup : String) (d : String)
    (h1 : d ≠ "") (h2 : lowerStr d ≠ "/skip_payment_details") :
    (wizardOutcome env ⟨item, ImgChoice.skip, price, moq, closing, pickup, PayChoice.digitalText d⟩).1.conv = some WizState.ASKING_CONFIRMATION ∧
    alookup (wizardRecord env ⟨item, ImgChoice.skip, price, moq, closing, pickup, PayChoice.digitalText d⟩) "itemName" = some (FValue.str item) ∧
    alookup (wizardRecord env ⟨item, ImgChoice.skip, price, moq, closing, pickup, PayChoice.digitalText d⟩) "itemPrice" = some (FValue.str price) ∧
    alookup (wizardRecord env ⟨item, ImgChoice.skip, price, moq, closing, pickup, PayChoice.digitalText d⟩) "deadline" = some (FValue.str closing) ∧
    alookup (wizardRecord env ⟨item, ImgChoice.skip, price, moq, closing, pickup, PayChoice.digitalText d⟩) "pickupAddress" = some (FValue.str pickup) ∧
    alookup (wizardRecord env ⟨item, ImgChoice.skip, price, moq, closing, pickup, PayChoice.digitalText d⟩) "minParticipants" =
      some (if lowerStr moq = "no moq" then FValue.int 0 else FValue.str moq) ∧
    alookup (wizardRecord env ⟨item, ImgChoice.skip, price, moq, closing, pickup, PayChoice.digitalText d⟩) "paymentMethod" = some (FValue.str "Digital") ∧
    alookup (wizardRecord env ⟨item, ImgChoice.skip, price, moq, closing, pickup, PayChoice.digitalText d⟩) "imageFileId" = some (FValue.null) ∧
    alookup (wizardRecord env ⟨item, ImgChoice.skip, price, moq, closing, pickup, PayChoice.digitalText d⟩) "paymentDetails" = some (FValue.str d) ∧
    alookup (cleanOffer (wizardRecord env ⟨item, ImgChoice.skip, price, moq, closing, pickup, PayChoice.digitalText d⟩)) "imageFileId" = none ∧
    alookup (cleanOffer (wizardRecord env ⟨item, ImgChoice.skip, price, moq, closing, pickup, PayChoice.digitalText d⟩)) "paymentDetails" = some (FValue.str d) := by
  have hrun : (wizardOutcome env ⟨item, ImgChoice.skip, price, moq, closing, pickup, PayChoice.digitalText d⟩).1
      = ⟨some WizState.ASKING_CONFIRMATION,
         ⟨[("item_name", FValue.str item), ("wants_image", FValue.boolean false),
           ("image_file_id", FValue.null),
           ("price", FValue.str price),
           ("moq", FValue.str moq), ("closing_time", FValue.str closing),
           ("pickup", FValue.str pickup), ("payment_method", FValue.str "Digital"),
           ("payment_details", FValue.str d), ("payment_qr_file_id", FValue.null)], []⟩⟩ := by
    simp [wizardOutcome, wizardEvents, runEvents, processPrivate, dispatchPrivate,
      entryFor, stateHandlerFor, runHandler, newbuy_start_dm, received_item,
      received_image_choice, received_price, received_moq,
      received_closing_time, received_pickup, received_payment_choice,
      show_confirmation, freshMachine, aupsert, received_payment_details, h1, h2]
  simp only [wizardRecord, hrun]
  by_cases hm : lowerStr moq = "no moq" <;>
    simp [assembleOffer, cleanOffer, dget, alookup, groupChatOf, FValue.toPyStr, hm]

set_option maxHeartbeats 1000000 in
/-- Field computation of one complete valid run (helper for the C1
theorem; case skip digital qr). -/
theorem offer_fields_skip_digital_qr (env : Env)
    (item price moq closing pickup : String) (f : String) :
    (wizardOutcome env ⟨item, ImgChoice.skip, price, moq, closing, pickup, PayChoice.digitalQR f⟩).1.conv = some WizState.ASKING_CONFIRMATION ∧
    alookup (wizardRecord env ⟨item, ImgChoice.skip, price, moq, closing, pickup, PayChoice.digitalQR f⟩) "itemName" = some (FValue.str item) ∧
    alookup (wizardRecord env ⟨item, ImgChoice.skip, price, moq, closing, pickup, PayChoice.digitalQR f⟩) "itemPrice" = some (FValue.str price) ∧
    alookup (wizardRecord env ⟨item, ImgChoice.skip, price, moq, closing, pickup, PayChoice.digitalQR f⟩) "deadline" = some (FValue.str closing) ∧
    alookup (wizardRecord env ⟨item, ImgChoice.skip, price, moq, closing, pickup, PayChoice.digitalQR f⟩) "pickupAddress" = some (FValue.str pickup) ∧
    alookup (wizardRecord env ⟨item, ImgChoice.skip, price, moq, closing, pickup, PayChoice.digitalQR f⟩) "minParticipants" =
      some (if lowerStr moq = "no moq" then FValue.int 0 else FValue.str moq) ∧
    alookup (wizardRecord env ⟨item, ImgChoice.skip, price, moq, closing, pickup, PayChoice.digitalQR f⟩) "paymentMethod" = some (FValue.str "Digital") ∧
    alookup (wizardRecord env ⟨item, ImgChoice.skip, price, moq, closing, pickup, PayChoice.digitalQR f⟩) "imageFileId" = some (FValue.null) ∧
    alookup (wizardRecord env ⟨item, ImgChoice.skip, price, moq, closing, pickup, PayChoice.digitalQR f⟩) "paymentDetails" = some (FValue.str "PayNow QR Code provided") ∧
    alookup (cleanOffer (wizardRecord env ⟨item, ImgChoice.skip, price, moq, closing, pickup, PayChoice.digitalQR f⟩)) "imageFileId" = none ∧
    alookup (cleanOffer (wizardRecord env ⟨item, ImgChoice.skip, price, moq, closing, pickup, PayChoice.digitalQR f⟩)) "paymentDetails" = some (FValue.str "PayNow QR Code provided") := by
  have hrun : (wizardOutcome env ⟨item, ImgChoice.skip, price, moq, closing, pickup, PayChoice.digitalQR f⟩).1
      = ⟨some WizState.ASKING_CONFIRMATION,
         ⟨[("item_name", FValue.str item), ("wants_image", FValue.boolean false),
           ("image_file_id", FValue.null),
           ("price", FValue.str price),
           ("moq", FValue.str moq), ("closing_time", FValue.str closing),
           ("pickup", FValue.str pickup), ("payment_method", FValue.str "Digital"),
           ("payment_details", FValue.str "PayNow QR Code provided"),
           ("payment_qr_file_id", FValue.str f)], []⟩⟩ := by
    simp [wizardOutcome, wizardEvents, runEvents, processPrivate, dispatchPrivate,
      entryFor, stateHandlerFor, runHandler, newbuy_start_dm, received_item,
      received_image_choice, received_price, received_moq,
      received_closing_time, received_pickup, received_payment_choice,
      show_confirmation, freshMachine, aupsert, received_payment_details]
  simp only [wizardRecord, hrun]
  by_cases hm : lowerStr moq = "no moq" <;>
    simp [assembleOffer, cleanOffer, dget, alookup, groupChatOf, FValue.toPyStr, hm]

set_option maxHeartbeats 1000000 in
/-- Field computation of one complete valid run (helper for the C1
theorem; case skip digital skipdetails). -/
theorem offer_fields_skip_digital_skipdetails (env : Env)
    (item price moq closing pickup : String) :
    (wizardOutcome env ⟨item, ImgChoice.skip, price, moq, closing, pickup, PayChoice.digitalSkip⟩).1.conv = some WizState.ASKING_CONFIRMATION ∧
    alookup (wizardRecord env ⟨item, ImgChoice.skip, price, moq, closing, pickup, PayChoice.digitalSkip⟩) "itemName" = some (FValue.str item) ∧
    alookup (wizardRecord env ⟨item, ImgChoice.skip, price, moq, closing, pickup, PayChoice.digitalSkip⟩) "itemPrice" = some (FValue.str price) ∧
    alookup (wizardRecord env ⟨item, ImgChoice.skip, price, moq, closing, pickup, PayChoice.digitalSkip⟩) "deadline" = some (FValue.str closing) ∧
    alookup (wizardRecord env ⟨item, ImgChoice.skip, price, moq, closing, pickup, PayChoice.digitalSkip⟩) "pickupAddress" = some (FValue.str pickup) ∧
    alookup (wizardRecord env ⟨item, ImgChoice.skip, price, moq, closing, pickup, PayChoice.digitalSkip⟩) "minParticipants" =
      some (if lowerStr moq = "no moq" then FValue.int 0 else FValue.str moq) ∧
    alookup (wizardRecord env ⟨item, ImgChoice.skip, price, moq, closing, pickup, PayChoice.digitalSkip⟩) "paymentMethod" = some (FValue.str "Digital") ∧
    alookup (wizardRecord env ⟨item, ImgChoice.skip, price, moq, closing, pickup, PayChoice.digitalSkip⟩) "imageFileId" = some (FValue.null) ∧
    alookup (wizardRecord env ⟨item, ImgChoice.skip, price, moq, closing, pickup, PayChoice.digitalSkip⟩) "paymentDetails" = some (FValue.str "Details to be provided later by organizer") ∧
    alookup (cleanOffer (wizardRecord env ⟨item, ImgChoice.skip, price, moq, closing, pickup, PayChoice.digitalSkip⟩)) "imageFileId" = none ∧
    alookup (cleanOffer (wizardRecord env ⟨item, ImgChoice.skip, price, moq, closing, pickup, PayChoice.digitalSkip⟩)) "paymentDetails" = some (FValue.str "Details to be provided later by organizer") := by
  have hrun : (wizardOutcome env ⟨item, ImgChoice.skip, price, moq, closing, pickup, PayChoice.digitalSkip⟩).1
      = ⟨some WizState.ASKING_CONFIRMATION,
         ⟨[("item_name", FValue.str item), ("wants_image", FValue.boolean false),
           ("image_file_id", FValue.null),
           ("price", FValue.str price),
           ("moq", FValue.str moq), ("closing_time", FValue.str closing),
           ("pickup", FValue.str pickup), ("payment_method", FValue.str "Digital"),
           ("payment_details", FValue.str "Details to be provided later by organizer"),
           ("payment_qr_file_id", FValue.null)], []⟩⟩ := by
    simp [wizardOutcome, wizardEvents, runEvents, processPrivate, dispatchPrivate,
      entryFor, stateHandlerFor, runHandler, newbuy_start_dm, received_item,
      received_image_choice, received_price, received_moq,
      received_closing_time, received_pickup, received_payment_choice,
      show_confirmation, freshMachine, aupsert, skip_payment_details_command]
  simp only [wizardRecord, hrun]
  by_cases hm : lowerStr moq = "no moq" <;>
    simp [assembleOffer, cleanOffer, dget, alookup, groupChatOf, FValue.toPyStr, hm]

set_option maxHeartbeats 1000000 in
/-- Field computation of one complete valid run (helper for the C1
theorem; case skip manual). -/
theorem offer_fields_skip_manual (env : Env)
    (item price moq closing pickup : String) :
    (wizardOutcome env ⟨item, ImgChoice.skip, price, moq, closing, pickup, PayChoice.manual⟩).1.conv = some WizState.ASKING_CONFIRMATION ∧
    alookup (wizardRecord env ⟨item, ImgChoice.skip, price, moq, closing, pickup, PayChoice.manual⟩) "itemName" = some (FValue.str item) ∧
    alookup (wizardRecord env ⟨item, ImgChoice.skip, price, moq, closing, pickup, PayChoice.manual⟩) "itemPrice" = some (FValue.str price) ∧
    alookup (wizardRecord env ⟨item, ImgChoice.skip, price, moq, closing, pickup, PayChoice.manual⟩) "deadline" = some (FValue.str closing) ∧
    alookup (wizardRecord env ⟨item, ImgChoice.skip, price, moq, closing, pickup, PayChoice.manual⟩) "pickupAddress" = some (FValue.str pickup) ∧
    alookup (wizardRecord env ⟨item, ImgChoice.skip, price, moq, closing, pickup, PayChoice.manual⟩) "minParticipants" =
      some (if lowerStr moq = "no moq" then FValue.int 0 else FValue.str moq) ∧
    alookup (wizardRecord env ⟨item, ImgChoice.skip, price, moq, closing, pickup, PayChoice.manual⟩) "paymentMethod" = some (FValue.str "Manual") ∧
    alookup (wizardRecord env ⟨item, ImgChoice.skip, price, moq, closing, pickup, PayChoice.manual⟩) "imageFileId" = some (FValue.null) ∧
    alookup (wizardRecord env ⟨item, ImgChoice.skip, price, moq, closing, pickup, PayChoice.manual⟩) "paymentDetails" = some (FValue.null) ∧
    alookup (cleanOffer (wizardRecord env ⟨item, ImgChoice.skip, price, moq, closing, pickup, PayChoice.manual⟩)) "imageFileId" = none ∧
    alookup (cleanOffer (wizardRecord env ⟨item, ImgChoice.skip, price, moq, closing, pickup, PayChoice.manual⟩)) "paymentDetails" = none := by
  have hrun : (wizardOutcome env ⟨item, ImgChoice.skip, price, moq, closing, pickup, PayChoice.manual⟩).1
      = ⟨some WizState.ASKING_CONFIRMATION,
         ⟨[("item_name", FValue.str item), ("wants_image", FValue.boolean false),
           ("image_file_id", FValue.null),
           ("price", FValue.str price),
           ("moq", FValue.str moq), ("closing_time", FValue.str closing),
           ("pickup", FValue.str pickup), ("payment_method", FValue.str "Manual"),
           ("payment_details", FValue.null)], []⟩⟩ := by
    simp [wizardOutcome, wizardEvents, runEvents, processPrivate, dispatchPrivate,
      entryFor, stateHandlerFor, runHandler, newbuy_start_dm, received_item,
      received_image_choice, received_price, received_moq,
      received_closing_time, received_pickup, received_payment_choice,
      show_confirmation, freshMachine, aupsert]
  simp only [wizardRecord, hrun]
  by_cases hm : lowerStr moq = "no moq" <;>
    simp [assembleOffer, cleanOffer, dget, alookup, groupChatOf, FValue.toPyStr, hm]
/-- C1 amended: for every completed valid run of the wizard in the fixed
question order, the assembled Offer Record's fields equal exactly the
supplied values, and every unset optional field (the image reference when
the image was skipped, payment details under Manual payment) is present
in the assembled record with the explicit `None` sentinel — but the
cleaning step removes `None`-valued fields, so in the cleaned record
handed to the sink those unset optional fields are absent rather than
present under a sentinel. -/
theorem offer_record_fields (env : Env) (w : WizardInput) (hp : payOk w.pay) :
    (wizardOutcome env w).1.conv = some WizState.ASKING_CONFIRMATION ∧
    alookup (wizardRecord env w) "itemName" = some (FValue.str w.item) ∧
    alookup (wizardRecord env w) "itemPrice" = some (FValue.str w.price) ∧
    alookup (wizardRecord env w) "deadline" = some (FValue.str w.closing) ∧
    alookup (wizardRecord env w) "pickupAddress" = some (FValue.str w.pickup) ∧
    alookup (wizardRecord env w) "minParticipants" =
      some (if lowerStr w.moq = "no moq" then FValue.int 0 else FValue.str w.moq) ∧
    alookup (wizardRecord env w) "paymentMethod" = some (FValue.str (payMethodName w.pay)) ∧
    alookup (wizardRecord env w) "imageFileId" = some (imgValue w.img) ∧
    alookup (wizardRecord env w) "paymentDetails" = some (payDetailsValue w.pay) ∧
    alookup (cleanOffer (wizardRecord env w)) "imageFileId" =
      (match w.img with
       | ImgChoice.upload f => some (FValue.str f)
       | ImgChoice.skip => none) ∧
    alookup (cleanOffer (wizardRecord env w)) "paymentDetails" =
      (match w.pay with
       | PayChoice.manual => none
       | p => some (payDetailsValue p)) := by
  obtain ⟨item, img, price, moq, closing, pickup, pay⟩ := w
  cases img with
  | upload fid =>
    cases pay with
    | digitalText d =>
      exact offer_fields_upload_digital_text env item price moq closing pickup fid d hp.1 hp.2
    | digitalQR f => exact offer_fields_upload_digital_qr env item price moq closing pickup fid f
    | digitalSkip => exact offer_fields_upload_digital_skip env item price moq closing pickup fid
    | manual => exact offer_fields_upload_manual env item price moq closing pickup fid
  | skip =>
    cases pay with
    | digitalText d =>
      exact offer_fields_skip_digital_text env item price moq closing pickup d hp.1 hp.2
    | digitalQR f => exact offer_fields_skip_digital_qr env item price moq closing pickup f
    | digitalSkip => exact offer_fields_skip_digital_skipdetails env item price moq closing pickup
    | manual => exact offer_fields_skip_manual env item price moq closing pickup

/-- C1 witness: a concrete run with a digital payment detail text. -/
theorem offer_record_fields_witness :
    alookup (wizardRecord envA wA) "paymentDetails"
      = some (payDetailsValue wA.pay) ∧
    alookup (wizardRecord envA wA) "itemName" = some (FValue.str wA.item) :=
  ⟨(offer_record_fields envA wA ⟨by decide, by decide⟩).2.2.2.2.2.2.2.2.1,
   (offer_record_fields envA wA ⟨by decide, by decide⟩).2.1⟩

/-- C4 witness: a stray `confirm_cancel` payload at the payment branch
point. -/
theorem branch_mismatch_resets_witness :
    (processPrivate envA (some WizState.ASKING_PAYMENT_CHOICE)
        ⟨[("item_name", FValue.str "Tea")], []⟩ (Ev.callback "start_setup")).handled
      = some HandlerId.hUnexpected ∧
    (processPrivate envA (some WizState.ASKING_PAYMENT_CHOICE)
        ⟨[("item_name", FValue.str "Tea")], []⟩ (Ev.callback "start_setup")).ctx.user_data
      = [] :=
  ⟨(branch_mismatch_resets envA ⟨[("item_name", FValue.str "Tea")], []⟩
      WizState.ASKING_PAYMENT_CHOICE "start_setup" (Or.inr ⟨rfl, by decide, by decide⟩)).1,
   (branch_mismatch_resets envA ⟨[("item_name", FValue.str "Tea")], []⟩
      WizState.ASKING_PAYMENT_CHOICE "start_setup" (Or.inr ⟨rfl, by decide, by decide⟩)).2.1⟩

end Garupa
